import Mathlib

/-!
Verification of the marker subsystem of the classquiz OCR repository.

This file shallowly embeds the pure parts of `marker_module` — the address
codec (`ExamScanner.decode_marker`, the block-based id formula of
`MarkerGenerator.calculate_markers`), the consensus scan (`ExamScanner.scan_page`
from the decoded marker ids onwards; the ArUco pixel-level detection is an
external primitive and enters only as the list of detected ids), the batch
organizer (`ExamScanner.organize_by_page`), the marker-placement pixel
frame (`MarkerGenerator.add_markers_to_page`) and the homography guard logic
(`CoordinateMapper`), with the external numeric primitives
(`cv2.findHomography`, `np.linalg.inv`, `cv2.warpPerspective`, glyph
rendering) passed as opaque function parameters.
-/

namespace MarkerConfig

/-- `MarkerConfig.MARKER_SIZE` (marker_config.py line 17). -/
def MARKER_SIZE : Nat := 90

/-- `MarkerConfig.MARGIN` (marker_config.py line 18). -/
def MARGIN : Nat := 20

/-- `MarkerConfig.MAX_MARKER_ID` (marker_config.py line 19). -/
def MAX_MARKER_ID : Nat := 999

/-- `MarkerConfig.PAGES_PER_EXAM` (marker_config.py line 20). -/
def PAGES_PER_EXAM : Nat := 9

/-- `MarkerConfig.CORNERS_PER_PAGE` (marker_config.py line 21). -/
def CORNERS_PER_PAGE : Nat := 4

/-- `MarkerConfig.BLOCK_SIZE = PAGES_PER_EXAM * CORNERS_PER_PAGE` (line 22). -/
def BLOCK_SIZE : Nat := PAGES_PER_EXAM * CORNERS_PER_PAGE

/-- `MarkerConfig.CORNER_NAMES` (marker_config.py line 23). -/
def CORNER_NAMES : List String := ["top_left", "top_right", "bottom_left", "bottom_right"]

/-- `MarkerConfig.FIXED_MARKER_IDS` (marker_config.py line 28). -/
def FIXED_MARKER_IDS : List Nat := [0, 1, 2]

/-- `MarkerConfig.MAX_EXAMS = (MAX_MARKER_ID + 1) // BLOCK_SIZE` (line 30). -/
def MAX_EXAMS : Nat := (MAX_MARKER_ID + 1) / BLOCK_SIZE

/-- `MarkerConfig.DOC_WIDTH` (marker_config.py line 34). -/
def DOC_WIDTH : Nat := 1654

/-- `MarkerConfig.DOC_HEIGHT` (marker_config.py line 35). -/
def DOC_HEIGHT : Nat := 2338

end MarkerConfig

/-- `ExamScanner.decode_marker` (marker_scanner.py lines 146-164): split a
marker id into exam id, page number and corner name by integer division and
remainder against `BLOCK_SIZE` and `CORNERS_PER_PAGE`.  The source indexes
`corner_names[corner_id]`; since `corner_id < 4` always, `List.getD` with a
dummy default is an exact model of that (never-failing) index. -/
def decode_marker (marker_id : Nat) : Nat × Nat × String :=
  let exam_id := marker_id / MarkerConfig.BLOCK_SIZE
  let remainder := marker_id % MarkerConfig.BLOCK_SIZE
  let page_number := remainder / MarkerConfig.CORNERS_PER_PAGE
  let corner_id := remainder % MarkerConfig.CORNERS_PER_PAGE
  (exam_id, page_number, MarkerConfig.CORNER_NAMES.getD corner_id "")

/-- The dynamic fourth id of `MarkerGenerator.calculate_markers`
(marker_generator.py lines 39-40): `base = exam_id * BLOCK_SIZE +
page_number * CORNERS_PER_PAGE`, `fourth_id = base + (CORNERS_PER_PAGE - 1)`. -/
def unique_corner_id (exam_id page_number : Nat) : Nat :=
  exam_id * MarkerConfig.BLOCK_SIZE + page_number * MarkerConfig.CORNERS_PER_PAGE
    + (MarkerConfig.CORNERS_PER_PAGE - 1)

/-- `MarkerGenerator.calculate_markers` (marker_generator.py lines 17-55).
Python raises `ValueError`; we model raising as `Except.error` with the
message of the source (format interpolation spelled out with the concrete
configuration values).  Inputs are `Nat`, which carries the `0 <=` half of
the source's range checks; the upper-bound halves are kept verbatim. -/
def calculate_markers (exam_id page_number : Nat) : Except String (List Nat) :=
  if ¬ (page_number < MarkerConfig.PAGES_PER_EXAM) then
    .error "page_number must be between 0 and 8"
  else if ¬ (exam_id < MarkerConfig.MAX_EXAMS) then
    .error "exam_id must be between 0 and 26. Current dictionary supports only 27 exams."
  else
    let fourth_id := unique_corner_id exam_id page_number
    if MarkerConfig.FIXED_MARKER_IDS.any fun fid => MarkerConfig.MAX_MARKER_ID < fid then
      .error "Fixed marker IDs must be within dictionary capacity"
    else if MarkerConfig.MAX_MARKER_ID < fourth_id then
      .error ("Generated marker ID " ++ toString fourth_id ++ " exceeds dictionary capacity 999")
    else
      .ok (MarkerConfig.FIXED_MARKER_IDS ++ [fourth_id])

/-- Under the source's own bounds the generator never hits the capacity
error branches: the result is the three fixed ids followed by the dynamic
fourth id. -/
theorem calculate_markers_ok (e p : Nat) (he : e < MarkerConfig.MAX_EXAMS)
    (hp : p < MarkerConfig.PAGES_PER_EXAM) :
    calculate_markers e p = .ok (MarkerConfig.FIXED_MARKER_IDS ++ [unique_corner_id e p]) := by
  have hE : MarkerConfig.MAX_EXAMS = 27 := by rfl
  have hP : MarkerConfig.PAGES_PER_EXAM = 9 := by rfl
  have hbound : unique_corner_id e p ≤ 971 := by
    unfold unique_corner_id
    rw [hE] at he; rw [hP] at hp
    show e * 36 + p * 4 + 3 ≤ 971
    omega
  unfold calculate_markers
  rw [if_neg (by simp [hp]), if_neg (by simp [he])]
  simp only [MarkerConfig.FIXED_MARKER_IDS, MarkerConfig.MAX_MARKER_ID]
  rw [if_neg (by decide), if_neg (by omega)]

/-- One entry of the `detected_markers` list built by
`ExamScanner._process_markers` (marker_scanner.py lines 113-118). -/
structure DetectedMarker where
  marker_id : Nat
  exam_id : Nat
  page_number : Nat
  corner : String
deriving Repr, DecidableEq

/-- The result dictionary of `ExamScanner.scan_page` (marker_scanner.py
lines 16-81) and `_create_error_result` (lines 122-144), as one record.
The pixel-level `corners` entry and the constant `expected_markers` entry
are omitted (external detector data and a configuration constant); a dict
key absent in an error result is modelled by its default (`none`, `[]`,
`false`). -/
structure ScanResult where
  success : Bool
  exam_id : Option Nat
  page_number : Option Nat
  markers_found : Nat
  error : Option String
  detected_markers : List DetectedMarker
  all_corners_detected : Bool
deriving Repr, DecidableEq

/-- `ExamScanner._create_error_result` (marker_scanner.py lines 122-144). -/
def create_error_result (error : String) (markers_found : Nat)
    (detected_markers : List DetectedMarker) (exam_id : Option Nat) : ScanResult :=
  { success := false
    error := some error
    exam_id := exam_id
    page_number := none
    markers_found := markers_found
    detected_markers := detected_markers
    all_corners_detected := false }

/-- `ExamScanner.scan_page` (marker_scanner.py lines 16-81) from the point
where the external ArUco detector has delivered the flat list `ids` of
detected marker ids.  `_process_markers` (lines 101-120) builds the
`detected_markers` list and the Python *sets* of decoded exam ids and page
numbers; set size and singleton extraction (`next(iter(s))`) are modelled
with `List.dedup` on the decoded lists (`head?` of a singleton set is its
unique element, which is the only case the source reaches). -/
def scan_page (ids : List Nat) : ScanResult :=
  if ids.length = 0 then
    create_error_result "No markers detected" 0 [] none
  else
    let detected := ids.map fun m =>
      { marker_id := m
        exam_id := (decode_marker m).1
        page_number := (decode_marker m).2.1
        corner := (decode_marker m).2.2 : DetectedMarker }
    let exam_ids := (ids.map fun m => (decode_marker m).1).dedup
    let page_numbers := (ids.map fun m => (decode_marker m).2.1).dedup
    if 1 < exam_ids.length then
      create_error_result "Multiple exam IDs detected" ids.length detected none
    else if 1 < page_numbers.length then
      create_error_result "Multiple page numbers detected" ids.length detected exam_ids.head?
    else if exam_ids.isEmpty ∨ page_numbers.isEmpty then
      create_error_result "Could not decode valid exam ID or page number from detected markers"
        ids.length detected none
    else
      { success := true
        exam_id := exam_ids.head?
        page_number := page_numbers.head?
        markers_found := ids.length
        error := none
        detected_markers := detected
        all_corners_detected := ids.length == MarkerConfig.CORNERS_PER_PAGE }

/-- Association-list lookup modelling a Python dict read (`organized[k]`,
`k in organized`). -/
def assocLookup {κ α : Type} [DecidableEq κ] (m : List (κ × α)) (k : κ) : Option α :=
  match m with
  | [] => none
  | (k0, v) :: rest => if k0 = k then some v else assocLookup rest k

/-- Association-list update modelling a Python dict write
(`organized[k] = v`): update in place if the key exists, else append,
preserving dict insertion order. -/
def assocSet {κ α : Type} [DecidableEq κ] (m : List (κ × α)) (k : κ) (v : α) : List (κ × α) :=
  match m with
  | [] => [(k, v)]
  | (k0, v0) :: rest => if k0 = k then (k, v) :: rest else (k0, v0) :: assocSet rest k v

/-- The loop body of `ExamScanner.organize_by_page` (marker_scanner.py
lines 207-227): skip unsuccessful results and results missing an exam id or
page number; otherwise write the result into the nested dict at
`organized[exam_id][page_number]` (the source logs the duplicate warning at
line 222 and then writes unconditionally at line 227). -/
def orgStep (organized : List (Nat × List (Nat × ScanResult))) (result : ScanResult) :
    List (Nat × List (Nat × ScanResult)) :=
  if result.success = false then organized
  else
    match result.exam_id, result.page_number with
    | some e, some p =>
        assocSet organized e (assocSet ((assocLookup organized e).getD []) p result)
    | _, _ => organized

/-- `ExamScanner.organize_by_page` (marker_scanner.py lines 199-234); the
`failed_scans` counter is used only for logging and is not returned. -/
def organize_by_page (scan_results : List ScanResult) : List (Nat × List (Nat × ScanResult)) :=
  scan_results.foldl orgStep []

/-- Read the entry the organized batch holds for slot `(e, p)`. -/
def lookupSlot (org : List (Nat × List (Nat × ScanResult))) (e p : Nat) : Option ScanResult :=
  (assocLookup org e).bind fun pages => assocLookup pages p

/-- The most recently submitted successful scan result resolving to slot
`(e, p)`, if any: the reference value for the organizer's overwrite
semantics. -/
def lastSlotResult (scan_results : List ScanResult) (e p : Nat) : Option ScanResult :=
  scan_results.foldl
    (fun acc r =>
      if r.success = true ∧ r.exam_id = some e ∧ r.page_number = some p then some r else acc)
    none

theorem assocLookup_assocSet_self {κ α : Type} [DecidableEq κ]
    (m : List (κ × α)) (k : κ) (v : α) : assocLookup (assocSet m k v) k = some v := by
  induction m with
  | nil => simp [assocSet, assocLookup]
  | cons hd tl ih =>
    obtain ⟨k0, v0⟩ := hd
    by_cases h : k0 = k
    · simp [assocSet, assocLookup, h]
    · simp [assocSet, assocLookup, h, ih]

theorem assocLookup_assocSet_ne {κ α : Type} [DecidableEq κ]
    (m : List (κ × α)) (k k' : κ) (v : α) (h : k' ≠ k) :
    assocLookup (assocSet m k v) k' = assocLookup m k' := by
  induction m with
  | nil => simp [assocSet, assocLookup, Ne.symm h]
  | cons hd tl ih =>
    obtain ⟨k0, v0⟩ := hd
    by_cases h0 : k0 = k
    · subst h0
      simp [assocSet, assocLookup, Ne.symm h]
    · simp [assocSet, assocLookup, h0, ih]

/-- One organizer loop step changes the entry stored for slot `(e, p)`
exactly when the processed result is a successful result for that slot, in
which case it overwrites it. -/
theorem lookupSlot_orgStep (org : List (Nat × List (Nat × ScanResult))) (r : ScanResult)
    (e p : Nat) :
    lookupSlot (orgStep org r) e p =
      if r.success = true ∧ r.exam_id = some e ∧ r.page_number = some p then some r
      else lookupSlot org e p := by
  cases hs : r.success with
  | false => simp [orgStep, hs, lookupSlot]
  | true =>
    cases he0 : r.exam_id with
    | none => simp [orgStep, hs, he0]
    | some e0 =>
      cases hp0 : r.page_number with
      | none => simp [orgStep, hs, he0, hp0]
      | some p0 =>
        by_cases hee : e0 = e
        · subst hee
          by_cases hpp : p0 = p
          · subst hpp
            simp [orgStep, hs, he0, hp0, lookupSlot,
              assocLookup_assocSet_self]
          · cases ho : assocLookup org e0 with
            | none =>
              simp [orgStep, hs, he0, hp0, hpp, lookupSlot, ho,
                assocLookup_assocSet_self,
                assocLookup_assocSet_ne _ _ _ _ (fun hq => hpp (Eq.symm hq)),
                assocLookup]
            | some pages =>
              simp [orgStep, hs, he0, hp0, hpp, lookupSlot, ho,
                assocLookup_assocSet_self,
                assocLookup_assocSet_ne _ _ _ _ (fun hq => hpp (Eq.symm hq))]
        · simp [orgStep, hs, he0, hp0, hee, lookupSlot,
            assocLookup_assocSet_ne _ _ _ _ (fun hq => hee (Eq.symm hq))]

theorem lookupSlot_foldl (rs : List ScanResult) (e p : Nat) :
    ∀ (org : List (Nat × List (Nat × ScanResult))) (acc : Option ScanResult),
      lookupSlot org e p = acc →
      lookupSlot (rs.foldl orgStep org) e p =
        rs.foldl
          (fun a r =>
            if r.success = true ∧ r.exam_id = some e ∧ r.page_number = some p then some r else a)
          acc := by
  induction rs with
  | nil => intro org acc h; simpa using h
  | cons r rest ih =>
    intro org acc h
    simp only [List.foldl_cons]
    apply ih
    rw [lookupSlot_orgStep, h]

/-- A raster image in row-major pixel-function form: `pix r c` is the pixel
at row `r`, column `c`.  The pixel type `α` is abstract (a 3-channel BGR
value in the source). -/
structure ImageF (α : Type) where
  height : Nat
  width : Nat
  pix : Nat → Nat → α

/-- The numpy slice assignment
`img_array[y:y+MARKER_SIZE, x:x+MARKER_SIZE] = marker`
(marker_generator.py line 91), for a fully in-bounds destination window. -/
def paste {α : Type} (img : ImageF α) (glyph : Nat → Nat → α) (x y : Nat) : ImageF α :=
  { img with
    pix := fun r c =>
      if y ≤ r ∧ r < y + MarkerConfig.MARKER_SIZE ∧ x ≤ c ∧ c < x + MarkerConfig.MARKER_SIZE then
        glyph (r - y) (c - x)
      else img.pix r c }

/-- The four paste positions of `MarkerGenerator.add_markers_to_page`
(marker_generator.py lines 83-88), as `(x, y)` pairs. -/
def marker_positions (width height : Nat) : List (Nat × Nat) :=
  [ (MarkerConfig.MARGIN, MarkerConfig.MARGIN),
    (width - MarkerConfig.MARKER_SIZE - MarkerConfig.MARGIN, MarkerConfig.MARGIN),
    (MarkerConfig.MARGIN, height - MarkerConfig.MARKER_SIZE - MarkerConfig.MARGIN),
    (width - MarkerConfig.MARKER_SIZE - MarkerConfig.MARGIN,
      height - MarkerConfig.MARKER_SIZE - MarkerConfig.MARGIN) ]

/-- `MarkerGenerator.add_markers_to_page` (marker_generator.py lines 65-94)
for an input that is already a 3-channel BGR array (for which the
gray/RGBA conversion branches at lines 72-75 do not fire).  Glyph
rendering (`generate_marker`, delegated to
`cv2.aruco.generateImageMarker`) is external and passed as the function
`glyph`, keyed by marker id; the `ValueError` of `calculate_markers`
propagates as `Except.error`. -/
def add_markers_to_page {α : Type} (glyph : Nat → Nat → Nat → α)
    (exam_id : Nat) (page_image : ImageF α) (page_number : Nat) : Except String (ImageF α) :=
  match calculate_markers exam_id page_number with
  | .error e => .error e
  | .ok marker_ids =>
      .ok (((marker_ids.map glyph).zip (marker_positions page_image.width page_image.height)).foldl
        (fun acc mg => paste acc mg.1 mg.2.1 mg.2.2) page_image)

/-- One corner entry of
`CoordinateMapper.calculate_original_marker_positions`
(coordinate_mapper.py lines 27-64): the marker's centre point and its four
outline corner points in document space. -/
structure OriginalMarker where
  center : ℚ × ℚ
  corners : List (ℚ × ℚ)
deriving Repr, DecidableEq

/-- `CoordinateMapper.calculate_original_marker_positions`
(coordinate_mapper.py lines 14-66), with `m = MARGIN`, `s = MARKER_SIZE`,
`W = DOC_WIDTH`, `H = DOC_HEIGHT`; Python float arithmetic on these exact
dyadic values is modelled in `ℚ`. -/
def calculate_original_marker_positions : List (String × OriginalMarker) :=
  let m : ℚ := MarkerConfig.MARGIN
  let s : ℚ := MarkerConfig.MARKER_SIZE
  let W : ℚ := MarkerConfig.DOC_WIDTH
  let H : ℚ := MarkerConfig.DOC_HEIGHT
  [ ("top_left",
      { center := (m + s / 2, m + s / 2)
        corners := [(m, m), (m + s, m), (m + s, m + s), (m, m + s)] }),
    ("top_right",
      { center := (W - m - s / 2, m + s / 2)
        corners := [(W - m - s, m), (W - m, m), (W - m, m + s), (W - m - s, m + s)] }),
    ("bottom_left",
      { center := (m + s / 2, H - m - s / 2)
        corners := [(m, H - m - s), (m + s, H - m - s), (m + s, H - m), (m, H - m)] }),
    ("bottom_right",
      { center := (W - m - s / 2, H - m - s / 2)
        corners := [(W - m - s, H - m - s), (W - m, H - m - s), (W - m, H - m),
          (W - m - s, H - m)] }) ]

/-- `CoordinateMapper.calculate_marker_center` (coordinate_mapper.py lines
68-81): `np.mean` over the four detected pixel corners of one marker. -/
def calculate_marker_center (corners : List (ℚ × ℚ)) : ℚ × ℚ :=
  ((corners.map Prod.fst).sum / corners.length, (corners.map Prod.snd).sum / corners.length)

/-- The correspondence-building loop of `CoordinateMapper.compute_homography`
(coordinate_mapper.py lines 126-140): for each detected marker whose
`corner` name is a key of the original-marker dict, pair the original
centre (`src_points` entry) with the centroid of the detected pixel
corners (`dst_points` entry). -/
def matched_correspondences (detected_markers : List DetectedMarker)
    (corners_data : List (List (ℚ × ℚ))) : List ((ℚ × ℚ) × (ℚ × ℚ)) :=
  (detected_markers.zip corners_data).filterMap fun dc =>
    match assocLookup calculate_original_marker_positions dc.1.corner with
    | some om => some (om.center, calculate_marker_center dc.2)
    | none => none

/-- `CoordinateMapper.compute_homography` (coordinate_mapper.py lines
106-152).  The numeric solve `cv2.findHomography` is an external primitive
passed as `findH` over an abstract transform type `H`; everything up to
that call — the two insufficient-points guards and the correspondence
matching — is the source's logic. -/
def compute_homography {H : Type} (findH : List (ℚ × ℚ) → List (ℚ × ℚ) → Option H)
    (detected_markers : List DetectedMarker) (corners_data : List (List (ℚ × ℚ))) : Option H :=
  if detected_markers.length < 4 then none
  else
    let pairs := matched_correspondences detected_markers corners_data
    if pairs.length < 4 then none
    else findH (pairs.map Prod.fst) (pairs.map Prod.snd)

/-- The fields of an `ExamScanner.scan_page` result dictionary that
`CoordinateMapper` reads: `success`, `markers_found`, `detected_markers`
and the raw detected pixel `corners`. -/
structure ScanData where
  success : Bool
  markers_found : Nat
  detected_markers : List DetectedMarker
  corners : List (List (ℚ × ℚ))

/-- `CoordinateMapper.compute_homography_from_scan` (coordinate_mapper.py
lines 83-104). -/
def compute_homography_from_scan {H : Type}
    (findH : List (ℚ × ℚ) → List (ℚ × ℚ) → Option H) (scan_result : ScanData) : Option H :=
  if scan_result.success = false then none
  else if scan_result.markers_found < 4 then none
  else compute_homography findH scan_result.detected_markers scan_result.corners

/-- `CoordinateMapper.extract_full_document` (coordinate_mapper.py lines
213-248).  Matrix inversion (`np.linalg.inv`) and the resampling
(`cv2.warpPerspective` at output size `DOC_WIDTH × DOC_HEIGHT`, plus the
colour conversions around it) are external primitives passed as `inv` and
`warp`. -/
def extract_full_document {H Img : Type}
    (findH : List (ℚ × ℚ) → List (ℚ × ℚ) → Option H) (inv : H → H)
    (warp : Img → H → Nat → Nat → Img) (image : Img) (scan_result : ScanData) : Option Img :=
  if scan_result.success = false ∨ scan_result.markers_found < 4 then none
  else
    match compute_homography_from_scan findH scan_result with
    | none => none
    | some hmat =>
        some (warp image (inv hmat) MarkerConfig.DOC_WIDTH MarkerConfig.DOC_HEIGHT)

/-- C2: round-trip law.  For every valid `(document_id, page_number)` within
capacity, decoding the unique-corner id returns exactly that address with
the designated corner `bottom_right`; with the shipped configuration the
unique id of document 1, page 0 is `1*36 + 0*4 + 3 = 39` and
`decode_marker 39 = (1, 0, bottom_right)`. -/
theorem unique_corner_roundtrip (d p : Nat)
    (hd : d < MarkerConfig.MAX_EXAMS) (hp : p < MarkerConfig.PAGES_PER_EXAM) :
    decode_marker (unique_corner_id d p) = (d, p, "bottom_right")
    ∧ unique_corner_id 1 0 = 39
    ∧ decode_marker 39 = (1, 0, "bottom_right") := by
  refine ⟨?_, rfl, rfl⟩
  have hE : MarkerConfig.MAX_EXAMS = 27 := rfl
  have hP : MarkerConfig.PAGES_PER_EXAM = 9 := rfl
  rw [hE] at hd; rw [hP] at hp
  have hu : unique_corner_id d p = d * 36 + p * 4 + 3 := rfl
  have h1 : (d * 36 + p * 4 + 3) / 36 = d := by omega
  have h2 : (d * 36 + p * 4 + 3) % 36 / 4 = p := by omega
  have h3 : (d * 36 + p * 4 + 3) % 36 % 4 = 3 := by omega
  show ((unique_corner_id d p) / MarkerConfig.BLOCK_SIZE,
    (unique_corner_id d p) % MarkerConfig.BLOCK_SIZE / MarkerConfig.CORNERS_PER_PAGE,
    MarkerConfig.CORNER_NAMES.getD
      ((unique_corner_id d p) % MarkerConfig.BLOCK_SIZE % MarkerConfig.CORNERS_PER_PAGE) "")
    = (d, p, "bottom_right")
  have hB : MarkerConfig.BLOCK_SIZE = 36 := rfl
  have hC : MarkerConfig.CORNERS_PER_PAGE = 4 := rfl
  rw [hu, hB, hC, h1, h2, h3]
  rfl

/-- C2 witness: the round-trip theorem instantiated at document 1, page 0. -/
theorem unique_corner_roundtrip_witness :
    1 < MarkerConfig.MAX_EXAMS ∧ 0 < MarkerConfig.PAGES_PER_EXAM
    ∧ decode_marker (unique_corner_id 1 0) = (1, 0, "bottom_right") :=
  ⟨by decide, by decide, (unique_corner_roundtrip 1 0 (by decide) (by decide)).1⟩

/-- C4 counterexample: marker id 972 lies in `[0, MAX_MARKER_ID]` but
decodes to `document_id = 27 = MAX_EXAMS`, violating the invariant
`document_id < MAX_DOCUMENTS` the claim asserts for every id in range. -/
theorem decode_marker_invariant_fails_at_972 :
    972 ≤ MarkerConfig.MAX_MARKER_ID
    ∧ (decode_marker 972).1 = MarkerConfig.MAX_EXAMS
    ∧ ¬ ((decode_marker 972).1 < MarkerConfig.MAX_EXAMS) := by decide

/-- C4 amended: `decode_marker` returns without failure for every id in
`[0, MAX_MARKER_ID]`, the page number always satisfies
`page_number < PAGES_PER_EXAM` and the corner is one of the four corner
names, and `document_id` never exceeds `MAX_EXAMS`; the strict invariant
`document_id < MAX_EXAMS` holds EXACTLY on
`[0, MAX_EXAMS * BLOCK_SIZE - 1]` (= `[0, 971]`), and every id in
`[972, MAX_MARKER_ID]` decodes to `document_id = MAX_EXAMS`. -/
theorem decode_marker_total_invariant (mid : Nat) (hm : mid ≤ MarkerConfig.MAX_MARKER_ID) :
    (decode_marker mid).2.1 < MarkerConfig.PAGES_PER_EXAM
    ∧ (decode_marker mid).2.2 ∈ MarkerConfig.CORNER_NAMES
    ∧ (decode_marker mid).1 ≤ MarkerConfig.MAX_EXAMS
    ∧ ((decode_marker mid).1 < MarkerConfig.MAX_EXAMS ↔
        mid < MarkerConfig.MAX_EXAMS * MarkerConfig.BLOCK_SIZE)
    ∧ (MarkerConfig.MAX_EXAMS * MarkerConfig.BLOCK_SIZE ≤ mid →
        (decode_marker mid).1 = MarkerConfig.MAX_EXAMS) := by
  have hM : MarkerConfig.MAX_MARKER_ID = 999 := rfl
  rw [hM] at hm
  refine ⟨?_, ?_, ?_, ?_, ?_⟩
  · show mid % 36 / 4 < 9
    omega
  · show MarkerConfig.CORNER_NAMES.getD (mid % 36 % 4) "" ∈ MarkerConfig.CORNER_NAMES
    have h4 : mid % 36 % 4 = 0 ∨ mid % 36 % 4 = 1 ∨ mid % 36 % 4 = 2 ∨ mid % 36 % 4 = 3 := by
      omega
    rcases h4 with h | h | h | h <;> rw [h] <;> decide
  · show mid / 36 ≤ 27
    omega
  · show mid / 36 < 27 ↔ mid < 972
    omega
  · intro h
    have h972 : 972 ≤ mid := h
    show mid / 36 = 27
    omega

/-- C4 amended-claim witness: the totality and strict-invariant
conclusions instantiated at marker id 39, and the out-of-band conclusion
`document_id = MAX_EXAMS` instantiated at marker id 999. -/
theorem decode_marker_total_invariant_witness :
    39 ≤ MarkerConfig.MAX_MARKER_ID
    ∧ (decode_marker 39).2.1 < MarkerConfig.PAGES_PER_EXAM
    ∧ (decode_marker 39).2.2 ∈ MarkerConfig.CORNER_NAMES
    ∧ (decode_marker 39).1 < MarkerConfig.MAX_EXAMS
    ∧ (decode_marker 999).1 = MarkerConfig.MAX_EXAMS :=
  ⟨by decide, (decode_marker_total_invariant 39 (by decide)).1,
    (decode_marker_total_invariant 39 (by decide)).2.1,
    ((decode_marker_total_invariant 39 (by decide)).2.2.2.1).mpr (by decide),
    (decode_marker_total_invariant 999 (by decide)).2.2.2.2 (by decide)⟩

/-- C6: capacity boundary.  `calculate_markers` succeeds (with the four
ids) for `exam_id = MAX_EXAMS - 1` at any valid page number, and raises the
out-of-range `ValueError` for `exam_id = MAX_EXAMS`; the bound is checked
before anything else is computed. -/
theorem calculate_markers_capacity_boundary (p : Nat) (hp : p < MarkerConfig.PAGES_PER_EXAM) :
    calculate_markers (MarkerConfig.MAX_EXAMS - 1) p
      = .ok (MarkerConfig.FIXED_MARKER_IDS ++ [unique_corner_id (MarkerConfig.MAX_EXAMS - 1) p])
    ∧ calculate_markers MarkerConfig.MAX_EXAMS p
      = .error "exam_id must be between 0 and 26. Current dictionary supports only 27 exams." := by
  constructor
  · exact calculate_markers_ok _ p (by decide) hp
  · unfold calculate_markers
    rw [if_neg (by simp [hp]), if_pos (by decide)]

/-- C6 witness: the capacity-boundary theorem instantiated at page 0. -/
theorem calculate_markers_capacity_boundary_witness :
    0 < MarkerConfig.PAGES_PER_EXAM
    ∧ calculate_markers (MarkerConfig.MAX_EXAMS - 1) 0
      = .ok (MarkerConfig.FIXED_MARKER_IDS ++ [unique_corner_id (MarkerConfig.MAX_EXAMS - 1) 0])
    ∧ calculate_markers MarkerConfig.MAX_EXAMS 0
      = .error "exam_id must be between 0 and 26. Current dictionary supports only 27 exams." :=
  ⟨by decide, (calculate_markers_capacity_boundary 0 (by decide)).1,
    (calculate_markers_capacity_boundary 0 (by decide)).2⟩

/-- C10: with the shipped configuration the dynamic fourth id lies in
`[3, 971]` for every valid address, so the two capacity error branches of
`calculate_markers` are unreachable there, the fourth id is strictly above
every fixed id, and the four returned ids are pairwise distinct. -/
theorem calculate_markers_fourth_id_range (e p : Nat)
    (he : e < MarkerConfig.MAX_EXAMS) (hp : p < MarkerConfig.PAGES_PER_EXAM) :
    3 ≤ unique_corner_id e p
    ∧ unique_corner_id e p ≤ 971
    ∧ calculate_markers e p = .ok (MarkerConfig.FIXED_MARKER_IDS ++ [unique_corner_id e p])
    ∧ (∀ fid ∈ MarkerConfig.FIXED_MARKER_IDS, fid < unique_corner_id e p)
    ∧ (MarkerConfig.FIXED_MARKER_IDS ++ [unique_corner_id e p]).Nodup := by
  have hE : MarkerConfig.MAX_EXAMS = 27 := rfl
  have hP : MarkerConfig.PAGES_PER_EXAM = 9 := rfl
  rw [hE] at he; rw [hP] at hp
  have hu : unique_corner_id e p = e * 36 + p * 4 + 3 := rfl
  refine ⟨by omega, by rw [hu]; omega, calculate_markers_ok e p (by rw [hE]; omega) hp, ?_, ?_⟩
  · intro fid hfid
    simp only [MarkerConfig.FIXED_MARKER_IDS, List.mem_cons, List.not_mem_nil,
      or_false] at hfid
    rw [hu]
    rcases hfid with h | h | h <;> (rw [h]; omega)
  · show List.Nodup [0, 1, 2, unique_corner_id e p]
    rw [hu]
    simp only [List.nodup_cons, List.mem_cons, List.not_mem_nil, or_false,
      List.nodup_nil, and_true, List.mem_singleton, not_or, not_false_iff]
    omega

/-- C1: the generator-to-scanner round trip FAILS on the code as shipped.
Feeding `scan_page` exactly the four ids `calculate_markers` produces for
exam 1, page 0 — the fixed ids `[0, 1, 2]` plus the unique id 39 — yields
`success = False` with the conflicting-exam-ids error, because the fixed
ids decode to exam 0, page 0 and derail the consensus check; only the
address `(0, 0)` (fixed ids and unique id agreeing by accident) survives
the scan. -/
theorem scan_page_rejects_generated_markers :
    calculate_markers 1 0 = .ok [0, 1, 2, 39]
    ∧ (scan_page [0, 1, 2, 39]).success = false
    ∧ (scan_page [0, 1, 2, 39]).error = some "Multiple exam IDs detected"
    ∧ (scan_page [0, 1, 2, 3]).success = true
    ∧ (scan_page [0, 1, 2, 3]).exam_id = some 0
    ∧ (scan_page [0, 1, 2, 3]).page_number = some 0 := by
  refine ⟨rfl, ?_, ?_, ?_, ?_, ?_⟩ <;> decide

/-- C5: scan consensus failure.  For a non-empty detection list whose
decoded exam ids form the singleton set `{e}` but whose decoded page
numbers contain at least two distinct values, `scan_page` fails with the
conflicting-page-numbers error, carrying the unambiguous exam id `e`; and
whenever two or more distinct exam ids are decoded, the
conflicting-exam-ids failure is returned instead (that check comes
first). -/
theorem scan_page_conflict_detection (ids : List Nat) (e : Nat) :
    (ids ≠ [] →
      (ids.map fun m => (decode_marker m).1).dedup = [e] →
      1 < ((ids.map fun m => (decode_marker m).2.1).dedup).length →
      (scan_page ids).success = false
      ∧ (scan_page ids).error = some "Multiple page numbers detected"
      ∧ (scan_page ids).exam_id = some e)
    ∧ (ids ≠ [] →
      1 < ((ids.map fun m => (decode_marker m).1).dedup).length →
      (scan_page ids).success = false
      ∧ (scan_page ids).error = some "Multiple exam IDs detected"
      ∧ (scan_page ids).exam_id = none) := by
  constructor
  · intro hne he hp
    have hlen : ¬ (ids.length = 0) := by simpa [List.length_eq_zero] using hne
    have hexam : ¬ (1 < ((ids.map fun m => (decode_marker m).1).dedup).length) := by
      rw [he]; simp
    simp only [scan_page]
    rw [if_neg hlen, if_neg hexam, if_pos hp]
    simp [create_error_result, he]
  · intro hne hex
    have hlen : ¬ (ids.length = 0) := by simpa [List.length_eq_zero] using hne
    simp only [scan_page]
    rw [if_neg hlen, if_pos hex]
    simp [create_error_result]

/-- C5 witness: the conflict theorem applied to `[3, 7]` (same exam 0,
pages 0 and 1) and to `[36, 3]` (exams 1 and 0). -/
theorem scan_page_conflict_detection_witness :
    ((scan_page [3, 7]).success = false
      ∧ (scan_page [3, 7]).error = some "Multiple page numbers detected"
      ∧ (scan_page [3, 7]).exam_id = some 0)
    ∧ ((scan_page [36, 3]).success = false
      ∧ (scan_page [36, 3]).error = some "Multiple exam IDs detected"
      ∧ (scan_page [36, 3]).exam_id = none) :=
  ⟨(scan_page_conflict_detection [3, 7] 0).1 (by decide) (by decide) (by decide),
    (scan_page_conflict_detection [36, 3] 0).2 (by decide) (by decide)⟩

/-- C7: degraded success.  For exactly two detections whose decoded
addresses agree on one exam id and one page number, `scan_page` succeeds
with `markers_found = 2` and `all_corners_detected = false`: identity
resolution does not require all four markers. -/
theorem scan_page_degraded_success (a b : Nat)
    (hex : (decode_marker b).1 = (decode_marker a).1)
    (hpg : (decode_marker b).2.1 = (decode_marker a).2.1) :
    (scan_page [a, b]).success = true
    ∧ (scan_page [a, b]).markers_found = 2
    ∧ (scan_page [a, b]).all_corners_detected = false
    ∧ (scan_page [a, b]).exam_id = some (decode_marker a).1
    ∧ (scan_page [a, b]).page_number = some (decode_marker a).2.1 := by
  have hxx : ∀ x : Nat, [x, x].dedup = [x] := by
    intro x
    rw [List.dedup_cons_of_mem (List.mem_singleton_self x),
      List.dedup_cons_of_not_mem (List.not_mem_nil x), List.dedup_nil]
  simp only [scan_page, List.map_cons, List.map_nil, hex, hpg, hxx]
  rw [if_neg (by simp), if_neg (by simp), if_neg (by simp), if_neg (by simp)]
  refine ⟨rfl, rfl, rfl, rfl, rfl⟩

/-- C7 witness: the degraded-success theorem applied to the two markers 0
and 3, which both decode to exam 0, page 0. -/
theorem scan_page_degraded_success_witness :
    (scan_page [0, 3]).success = true
    ∧ (scan_page [0, 3]).markers_found = 2
    ∧ (scan_page [0, 3]).all_corners_detected = false
    ∧ (scan_page [0, 3]).exam_id = some (decode_marker 0).1
    ∧ (scan_page [0, 3]).page_number = some (decode_marker 0).2.1 :=
  scan_page_degraded_success 0 3 rfl rfl

/-- Two successful scan results resolving to the same slot `(5, 2)`,
differing in their payload (`markers_found`), used to exhibit the
organizer's duplicate policy. -/
def dupFirstResult : ScanResult :=
  { success := true, exam_id := some 5, page_number := some 2, markers_found := 2,
    error := none, detected_markers := [], all_corners_detected := false }

/-- The later-submitted duplicate for slot `(5, 2)`: see `dupFirstResult`. -/
def dupSecondResult : ScanResult :=
  { success := true, exam_id := some 5, page_number := some 2, markers_found := 4,
    error := none, detected_markers := [], all_corners_detected := true }

/-- C3 counterexample: two successful results for slot `(5, 2)` submitted
in order — `organize_by_page` keeps the SECOND (later) one, not the
first-seen one the claim asserts: the duplicate write at
marker_scanner.py line 227 overwrites unconditionally after the warning
log at line 222. -/
theorem organize_by_page_overwrites_first :
    organize_by_page [dupFirstResult, dupSecondResult] = [(5, [(2, dupSecondResult)])]
    ∧ dupFirstResult ≠ dupSecondResult := by
  refine ⟨rfl, by decide⟩

/-- C3 amended: for every list of scan results, the organized batch holds
exactly one entry per `(exam_id, page_number)` slot (it is a nested dict),
and that entry is the LAST-seen successful result resolving to that slot;
earlier duplicates are overwritten, the duplicate being only logged. -/
theorem organize_by_page_last_wins (scan_results : List ScanResult) (e p : Nat) :
    lookupSlot (organize_by_page scan_results) e p = lastSlotResult scan_results e p := by
  unfold organize_by_page lastSlotResult
  exact lookupSlot_foldl scan_results e p [] none rfl

/-- C8: insufficient correspondences.  `compute_homography_from_scan`
returns `none` for any unsuccessful scan or one with fewer than 4 markers;
`compute_homography` returns `none` when fewer than 4 detections are given
or fewer than 4 corner correspondences are matched; and
`extract_full_document` returns `none` in all those cases instead of
producing an image. -/
theorem homography_insufficient_points {H Img : Type}
    (findH : List (ℚ × ℚ) → List (ℚ × ℚ) → Option H) (inv : H → H)
    (warp : Img → H → Nat → Nat → Img) (image : Img) (scan_result : ScanData)
    (detected_markers : List DetectedMarker) (corners_data : List (List (ℚ × ℚ))) :
    ((scan_result.success = false ∨ scan_result.markers_found < 4) →
      compute_homography_from_scan findH scan_result = none)
    ∧ (detected_markers.length < 4 →
      compute_homography findH detected_markers corners_data = none)
    ∧ ((matched_correspondences detected_markers corners_data).length < 4 →
      compute_homography findH detected_markers corners_data = none)
    ∧ ((scan_result.success = false ∨ scan_result.markers_found < 4) →
      extract_full_document findH inv warp image scan_result = none)
    ∧ (compute_homography_from_scan findH scan_result = none →
      extract_full_document findH inv warp image scan_result = none) := by
  refine ⟨?_, ?_, ?_, ?_, ?_⟩
  · rintro (h | h) <;> simp [compute_homography_from_scan, h]
  · intro h
    simp [compute_homography, h]
  · intro h
    simp [compute_homography, h]
  · intro h
    simp [extract_full_document, h]
  · intro h
    simp only [extract_full_document]
    split
    · rfl
    · rw [h]

/-- C8 witness: the insufficient-points theorem applied to a failed scan
result and an empty detection list (over transform type `ℕ` and image type
`ℕ`, with trivial external primitives). -/
theorem homography_insufficient_points_witness :
    compute_homography_from_scan (fun _ _ => some (1 : Nat)) ⟨false, 0, [], []⟩ = none
    ∧ compute_homography (fun _ _ => some (1 : Nat)) [] [] = none
    ∧ extract_full_document (fun _ _ => some (1 : Nat)) id (fun i _ _ _ => i) (0 : Nat)
        ⟨false, 0, [], []⟩ = none :=
  ⟨(homography_insufficient_points (fun _ _ => some (1 : Nat)) id (fun i _ _ _ => i) 0
      ⟨false, 0, [], []⟩ [] []).1 (Or.inl rfl),
    (homography_insufficient_points (fun _ _ => some (1 : Nat)) id (fun i _ _ _ => i) 0
      ⟨false, 0, [], []⟩ [] []).2.1 (by decide),
    (homography_insufficient_points (fun _ _ => some (1 : Nat)) id (fun i _ _ _ => i) 0
      ⟨false, 0, [], []⟩ [] []).2.2.2.1 (Or.inl rfl)⟩

/-- C9: marker placement frame property.  For a 3-channel page image whose
dimensions accommodate the four marker rectangles, every pixel outside the
four corner regions (each a `MARKER_SIZE` square placed at the
`marker_positions` offsets) of the output of `add_markers_to_page` equals
the corresponding input pixel: only the four corner regions are
modified. -/
theorem add_markers_frame_property {α : Type} (glyph : Nat → Nat → Nat → α)
    (e p : Nat) (img : ImageF α) (r c : Nat)
    (he : e < MarkerConfig.MAX_EXAMS) (hp : p < MarkerConfig.PAGES_PER_EXAM)
    (hw : MarkerConfig.MARKER_SIZE + 2 * MarkerConfig.MARGIN ≤ img.width)
    (hh : MarkerConfig.MARKER_SIZE + 2 * MarkerConfig.MARGIN ≤ img.height)
    (hout : ∀ xy ∈ marker_positions img.width img.height,
      ¬ (xy.2 ≤ r ∧ r < xy.2 + MarkerConfig.MARKER_SIZE
        ∧ xy.1 ≤ c ∧ c < xy.1 + MarkerConfig.MARKER_SIZE)) :
    (add_markers_to_page glyph e img p).map (fun out => out.pix r c)
      = .ok (img.pix r c) := by
  simp only [marker_positions, List.mem_cons, List.not_mem_nil, or_false,
    forall_eq_or_imp, forall_eq] at hout
  obtain ⟨h1, h2, h3, h4⟩ := hout
  rw [add_markers_to_page, calculate_markers_ok e p he hp]
  simp only [MarkerConfig.FIXED_MARKER_IDS, List.cons_append, List.nil_append,
    List.map_cons, List.map_nil, marker_positions, List.zip_cons_cons, List.zip_nil_right,
    List.foldl_cons, List.foldl_nil, Except.map]
  simp only [paste]
  rw [if_neg h4, if_neg h3, if_neg h2, if_neg h1]

/-- C9 witness: the frame property applied at exam 0, page 0 on a 300x200
image, at the pixel `(0, 0)`, which lies outside all four corner
regions. -/
theorem add_markers_frame_property_witness :
    (add_markers_to_page (fun _ _ _ => (0 : Nat)) 0 ⟨300, 200, fun r c => r * 1000 + c⟩ 0).map
      (fun out => out.pix 0 0) = .ok 0 :=
  add_markers_frame_property (fun _ _ _ => (0 : Nat)) 0 0 ⟨300, 200, fun r c => r * 1000 + c⟩
    0 0 (by decide) (by decide) (by decide) (by decide) (by decide)

/-- C10 witness: the fourth-id range theorem instantiated at exam 26,
page 8 (the extreme valid address, where the fourth id is 971). -/
theorem calculate_markers_fourth_id_range_witness :
    26 < MarkerConfig.MAX_EXAMS ∧ 8 < MarkerConfig.PAGES_PER_EXAM
    ∧ unique_corner_id 26 8 ≤ 971
    ∧ calculate_markers 26 8 = .ok (MarkerConfig.FIXED_MARKER_IDS ++ [unique_corner_id 26 8]) :=
  ⟨by decide, by decide, (calculate_markers_fourth_id_range 26 8 (by decide) (by decide)).2.1,
    (calculate_markers_fourth_id_range 26 8 (by decide) (by decide)).2.2.1⟩
